import Mathlib

/-!
Verification development for the voz-a-voz voice-to-voice translation
repository.  The Lean definitions below are a shallow embedding of the
orchestration code:

* `src/modules/translator.py` — the retry loop of
  `TextTranslator.translate_text`, the `functools.lru_cache`-backed
  `translate_with_cache`, and the static language table of
  `_get_supported_languages` (transcribed literally, duplicate keys and
  all, together with Python's dict-literal semantics);
* `src/modules/speech_recognition.py` — the engine cascade of
  `SpeechRecognizer._recognize_audio` and `_load_whisper_model`;
* `src/modules/text_to_speech.py` — the engine dispatch of
  `TextToSpeech.text_to_speech`, its two engine functions and
  `get_audio_base64`;
* `src/app.py` — `VoiceTranslatorApp._get_language_code`, the session
  toggle `_toggle_auto_translation`, and the shared-state publishing tail
  of `_process_audio_realtime`.

External collaborators (googletrans, Google/Sphinx/Whisper recognition,
gTTS, pyttsx3) are modelled as oracles: a value of type
`Except Unit α` is the outcome of one call into the collaborator
(`.error ()` = the call raised, `.ok a` = it returned `a`), and the
embedding threads explicit counters for how many such calls were made.
-/

set_option maxRecDepth 40000

namespace VozAVoz

/-! ## Python string helpers

`str.strip()` with no argument removes leading and trailing whitespace;
for the texts this program handles the relevant whitespace characters are
the six ASCII ones Python always strips.  `if not text or not
text.strip():` is equivalent to `pyStrip text = ""`. -/

/-- Whitespace characters removed by Python's `str.strip()`. -/
def isPySpace (c : Char) : Bool :=
  c = ' ' || c = '\t' || c = '\n' || c = '\r' ||
  c = Char.ofNat 11 || c = Char.ofNat 12

/-- Python `str.strip()` on the underlying character list. -/
def pyStripList (cs : List Char) : List Char :=
  ((cs.dropWhile isPySpace).reverse.dropWhile isPySpace).reverse

/-- Python `str.strip()`. -/
def pyStrip (s : String) : String :=
  ⟨pyStripList s.data⟩

/-! ## Translator: `TextTranslator.translate_text` (translator.py 346-391)

The backing call `self.translator.translate(text, src=…, dest=…)` is an
oracle `service : Nat → Except Unit String`, giving for each attempt
index the outcome of that attempt: `.error ()` = the call raised (any
transport/service error), `.ok t` = it returned a translation object
whose `.text` attribute is `t` (Python then checks `if translation and
translation.text:`, so an empty `t` is the falsy no-valid-text case). -/

/-- Configuration fields set in `TextTranslator.__init__`
(`self.max_retries = 3`, `self.retry_delay = 1`). -/
structure TextTranslator where
  max_retries : Nat := 3
  retry_delay : Nat := 1

/-- Observable outcome of one `translate_text` call: the returned value,
how many times the backing service was invoked, and the total seconds
spent in `time.sleep(self.retry_delay)` between attempts. -/
structure TranslateRun where
  result : Option String
  calls : Nat
  sleepSeconds : Nat
  deriving DecidableEq, Repr

/-- The `for attempt in range(self.max_retries):` loop of
`translate_text`: `attempt` is the current 0-based attempt index and
`remaining` the number of loop iterations still allowed.  A successful
service call with truthy text returns `translation.text.strip()`; a
successful call with falsy text returns `None` at once; an exception
sleeps `retry_delay` seconds and continues while `attempt <
max_retries - 1`, and returns `None` on the last attempt. -/
def translateAttempts (service : Nat → Except Unit String)
    (retry_delay : Nat) : Nat → Nat → Option String × Nat × Nat
  | _, 0 => (none, 0, 0)
  | attempt, r + 1 =>
    match service attempt with
    | .ok t =>
      if t = "" then (none, 1, 0) else (some (pyStrip t), 1, 0)
    | .error _ =>
      if r = 0 then
        (none, 1, 0)
      else
        let rec' := translateAttempts service retry_delay (attempt + 1) r
        (rec'.1, rec'.2.1 + 1, rec'.2.2 + retry_delay)

/-- `TextTranslator.translate_text(text, source_lang, target_lang)`.
`source_lang` and `target_lang` do not influence control flow; they are
forwarded to the backing service, which the `service` oracle already
closes over. -/
def translate_text (tr : TextTranslator) (service : Nat → Except Unit String)
    (text source_lang target_lang : String) : TranslateRun :=
  if pyStrip text = "" then
    ⟨none, 0, 0⟩
  else
    let out := translateAttempts service tr.retry_delay 0 tr.max_retries
    ⟨out.1, out.2.1, out.2.2⟩

/-! ## Translator: `translate_with_cache` (translator.py 393-406)

`translate_with_cache` is `translate_text` wrapped in
`@functools.lru_cache(maxsize=100)`.  `lru_cache` memoises on the exact
argument tuple `(text, source_lang, target_lang)` (the bound `self` is
fixed for one translator instance): a hit returns the stored value —
whatever it is, including `None` — and moves the entry to
most-recently-used; a miss calls the wrapped function once, stores its
result as most-recently-used, and evicts the least-recently-used entry
when the cache would exceed 100 entries. -/

/-- Cache key of `lru_cache`: the `(text, source_lang, target_lang)`
argument tuple. -/
abbrev TKey := String × String × String

/-- State of the `lru_cache` wrapper around `translate_with_cache`,
plus a cumulative count of how many times the wrapped `translate_text`
was entered.  `entries` is kept in most-recently-used-first order. -/
structure CacheState where
  entries : List (TKey × Option String)
  backingCalls : Nat
  deriving DecidableEq, Repr

/-- The empty cache of a fresh `TextTranslator` instance. -/
def CacheState.empty : CacheState := ⟨[], 0⟩

/-- Lookup in the memo table (no reordering). -/
def lruLookup (k : TKey) : List (TKey × Option String) → Option (Option String)
  | [] => none
  | (k', v) :: rest => if k' = k then some v else lruLookup k rest

/-- Move the entry for `k` (if present) to most-recently-used position,
as `lru_cache` does on a hit. -/
def lruPromote (k : TKey) (es : List (TKey × Option String)) :
    List (TKey × Option String) :=
  match lruLookup k es with
  | some v => (k, v) :: es.filter (fun p => !(p.1 = k : Bool))
  | none => es

/-- `TextTranslator.translate_with_cache(text, source_lang, target_lang)`
under the `lru_cache(maxsize=100)` decorator.  The per-key oracle
`service` plays the same role as in `translate_text`; on a miss the
wrapped `translate_text` runs once and its result — success or `None` —
is inserted.  Returns the call's result and the new cache state. -/
def translate_with_cache (tr : TextTranslator)
    (service : TKey → Nat → Except Unit String) (st : CacheState)
    (text source_lang target_lang : String) : Option String × CacheState :=
  let k : TKey := (text, source_lang, target_lang)
  match lruLookup k st.entries with
  | some v => (v, { st with entries := lruPromote k st.entries })
  | none =>
    let run := translate_text tr (service k) text source_lang target_lang
    (run.result,
      { entries := ((k, run.result) :: st.entries).take 100,
        backingCalls := st.backingCalls + 1 })

/-! ## Transcriber: `SpeechRecognizer` (speech_recognition.py 40-48, 126-169)

Each recognition engine is an oracle `Except Unit String`: the outcome of
invoking that engine on the captured audio (`.error ()` = the engine
raised — timeout, no-speech, network error; `.ok t` = it produced text
`t`).  The Whisper model handle is abstract (`Unit`). -/

/-- `SpeechRecognizer._load_whisper_model`: `whisper.load_model("tiny")`
may raise, in which case `self.whisper_model` is set to `None`. -/
def load_whisper_model (outcome : Except Unit Unit) : Option Unit :=
  match outcome with
  | .ok m => some m
  | .error _ => none

/-- `SpeechRecognizer._recognize_audio(audio, language)`: try Whisper
(only when `self.whisper_model` is set), then
`recognizer.recognize_google`, then `recognizer.recognize_sphinx`; each
engine's exception is caught and falls through; if all fail return
`None`.  Whisper success returns `result["text"]` unmodified. -/
def recognize_audio (whisper_model : Option Unit)
    (whisper google sphinx : Except Unit String) : Option String :=
  match whisper_model, whisper with
  | some _, .ok t => some t
  | _, _ =>
    match google with
    | .ok t => some t
    | .error _ =>
      match sphinx with
      | .ok t => some t
      | .error _ => none

/-- Modelled from the spec (§4.2 engine selection policy): try the given
engines in order until one succeeds; if every engine fails the result is
the explicit "no text recognized" outcome `none`.  Used as the
specification side of the refinement theorem for `recognize_audio`. -/
def engineCascade : List (Except Unit String) → Option String
  | [] => none
  | .ok t :: _ => some t
  | .error _ :: rest => engineCascade rest

/-! ## Speaker: `TextToSpeech` (text_to_speech.py 60-197)

Audio produced by a synthesis engine is a byte string, modelled as
`List Nat`.  Each engine's backing call (building and saving the `gTTS`
object, resp. `save_to_file` + `runAndWait` of pyttsx3 and reading the
file back) is an oracle `Except Unit Bytes`: `.error ()` = the call
raised, `.ok b` = it produced audio bytes `b`.  Each engine function
returns its `Optional[bytes]` result paired with the number of backing
engine invocations it performed. -/

/-- Python `bytes`. -/
abbrev Bytes := List Nat

/-- `TextToSpeech.text_to_speech_gtts(text, lang, slow)`: empty or
whitespace-only text returns `None` before touching gTTS; otherwise one
gTTS invocation whose exception is caught and turned into `None`. -/
def text_to_speech_gtts (gttsCall : Except Unit Bytes)
    (text lang : String) (slow : Bool) : Option Bytes × Nat :=
  if pyStrip text = "" then
    (none, 0)
  else
    match gttsCall with
    | .ok b => (some b, 1)
    | .error _ => (none, 1)

/-- `TextToSpeech.text_to_speech_pyttsx3(text, lang, voice_id)`: empty
or whitespace-only text returns `None`; an unavailable engine
(`self.tts_engine is None`, i.e. `_init_pyttsx3` failed) returns `None`;
otherwise one pyttsx3 invocation whose exception becomes `None`. -/
def text_to_speech_pyttsx3 (tts_engine_available : Bool)
    (pyttsxCall : Except Unit Bytes) (text lang : String) :
    Option Bytes × Nat :=
  if pyStrip text = "" then
    (none, 0)
  else if !tts_engine_available then
    (none, 0)
  else
    match pyttsxCall with
    | .ok b => (some b, 1)
    | .error _ => (none, 1)

/-- Observable outcome of one `text_to_speech` dispatch: the returned
value, how many times each engine function was entered
(`…Fn`), and how many backing engine invocations each performed
(`…Svc`). -/
structure TTSRun where
  result : Option Bytes
  gttsFn : Nat
  pyttsxFn : Nat
  gttsSvc : Nat
  pyttsxSvc : Nat
  deriving DecidableEq, Repr

/-- `TextToSpeech.text_to_speech(text, lang, engine, slow)`: dispatch on
the engine-name string — `'gtts'` calls `text_to_speech_gtts`,
`'pyttsx3'` calls `text_to_speech_pyttsx3`, anything else logs an error
and returns `None`. -/
def text_to_speech (tts_engine_available : Bool)
    (gttsCall pyttsxCall : Except Unit Bytes)
    (text lang engine : String) (slow : Bool) : TTSRun :=
  if engine = "gtts" then
    let out := text_to_speech_gtts gttsCall text lang slow
    ⟨out.1, 1, 0, out.2, 0⟩
  else if engine = "pyttsx3" then
    let out := text_to_speech_pyttsx3 tts_engine_available pyttsxCall text lang
    ⟨out.1, 0, 1, 0, out.2⟩
  else
    ⟨none, 0, 0, 0, 0⟩

/-- The base64 alphabet used by Python's `base64.b64encode`. -/
def base64Alphabet : List Char :=
  "ABCDEFGHIJKLMNOPQRSTUVWXYZabcdefghijklmnopqrstuvwxyz0123456789+/".data

/-- One base64 digit. -/
def b64Digit (n : Nat) : Char :=
  base64Alphabet.getD n 'A'

/-- Standard base64 encoding of a byte string (groups of 3 bytes into 4
digits, `=`-padded), as produced by `base64.b64encode(...)`. -/
def base64Encode : Bytes → List Char
  | [] => []
  | [a] =>
    [b64Digit (a / 4 % 64), b64Digit (a % 4 * 16), '=', '=']
  | [a, b] =>
    [b64Digit (a / 4 % 64), b64Digit (a % 4 * 16 + b / 16),
     b64Digit (b % 16 * 4), '=']
  | a :: b :: c :: rest =>
    b64Digit (a / 4 % 64) :: b64Digit (a % 4 * 16 + b / 16) ::
    b64Digit (b % 16 * 4 + c / 64) :: b64Digit (c % 64) ::
    base64Encode rest

/-- `TextToSpeech.get_audio_base64(text, lang, engine)`: run
`text_to_speech` (with the default `slow=False`); on a truthy byte
result (Python's `if audio_data:` — `None` and the empty byte string are
falsy) build the `data:<mime>;base64,<payload>` URL, with MIME type
`audio/wav` for pyttsx3 and `audio/mp3` otherwise; else return `None`.
Returns the data URL together with the underlying dispatch record. -/
def get_audio_base64 (tts_engine_available : Bool)
    (gttsCall pyttsxCall : Except Unit Bytes)
    (text lang engine : String) : Option String × TTSRun :=
  let run := text_to_speech tts_engine_available gttsCall pyttsxCall
    text lang engine false
  match run.result with
  | some b =>
    if b = [] then
      (none, run)
    else
      let mime := if engine = "pyttsx3" then "audio/wav" else "audio/mp3"
      (some ("data:" ++ mime ++ ";base64," ++ ⟨base64Encode b⟩), run)
  | none => (none, run)

/-! ## Language catalog (translator.py 31-344, app.py 430-441)

`TextTranslator._get_supported_languages` returns one big dict literal
(its `except` branch is unreachable: evaluating a literal cannot raise).
The literal is transcribed below exactly as written, duplicate keys
included, and Python's dict-literal semantics is applied to it: a
repeated key overwrites the stored value but keeps the position of its
first insertion. -/

/-- The key/value pairs of the dict literal in
`_get_supported_languages`, in source order (translator.py 41-327). -/
def languagePairs : List (String × String) := [
  ("es", "Español"),
  ("en", "English"),
  ("fr", "Français"),
  ("de", "Deutsch"),
  ("it", "Italiano"),
  ("pt", "Português"),
  ("ru", "Русский"),
  ("ja", "日本語"),
  ("ko", "한국어"),
  ("zh-cn", "简体中文"),
  ("zh-tw", "繁體中文"),
  ("ar", "العربية"),
  ("hi", "हिन्दी"),
  ("nl", "Nederlands"),
  ("sv", "Svenska"),
  ("da", "Dansk"),
  ("no", "Norsk"),
  ("fi", "Suomi"),
  ("pl", "Polski"),
  ("tr", "Türkçe"),
  ("he", "עברית"),
  ("th", "ไทย"),
  ("vi", "Tiếng Việt"),
  ("cs", "Čeština"),
  ("el", "Ελληνικά"),
  ("hu", "Magyar"),
  ("ro", "Română"),
  ("bg", "Български"),
  ("hr", "Hrvatski"),
  ("sk", "Slovenčina"),
  ("sl", "Slovenščina"),
  ("et", "Eesti"),
  ("lv", "Latviešu"),
  ("lt", "Lietuvių"),
  ("mt", "Malti"),
  ("ga", "Gaeilge"),
  ("cy", "Cymraeg"),
  ("is", "Íslenska"),
  ("sq", "Shqip"),
  ("mk", "Македонски"),
  ("sr", "Српски"),
  ("bs", "Bosanski"),
  ("me", "Crnogorski"),
  ("al", "Gjuha Shqipe"),
  ("hy", "Հայերեն"),
  ("ka", "ქართული"),
  ("az", "Azərbaycan"),
  ("kk", "Қазақша"),
  ("ky", "Кыргызча"),
  ("tg", "Тоҷикӣ"),
  ("tk", "Türkmençe"),
  ("uz", "Oʻzbekcha"),
  ("mn", "Монгол"),
  ("ne", "नेपाली"),
  ("si", "සිංහල"),
  ("ta", "தமிழ்"),
  ("te", "తెలుగు"),
  ("kn", "ಕನ್ನಡ"),
  ("ml", "മലയാളം"),
  ("or", "ଓଡ଼ିଆ"),
  ("pa", "ਪੰਜਾਬੀ"),
  ("gu", "ગુજરાતી"),
  ("mr", "मराठी"),
  ("as", "অসমীয়া"),
  ("bn", "বাংলা"),
  ("ur", "اردو"),
  ("fa", "فارسی"),
  ("ps", "پښتو"),
  ("ku", "Kurdî"),
  ("sd", "سنڌي"),
  ("dv", "ދިވެހި"),
  ("am", "አማርኛ"),
  ("ti", "ትግርኛ"),
  ("om", "Afaan Oromoo"),
  ("so", "Soomaali"),
  ("sw", "Kiswahili"),
  ("rw", "Kinyarwanda"),
  ("rn", "Kirundi"),
  ("lg", "Luganda"),
  ("ak", "Akan"),
  ("tw", "Twi"),
  ("ee", "Ewe"),
  ("ha", "هَوُسَ"),
  ("yo", "Yorùbá"),
  ("ig", "Igbo"),
  ("zu", "isiZulu"),
  ("xh", "isiXhosa"),
  ("af", "Afrikaans"),
  ("st", "Sesotho"),
  ("tn", "Setswana"),
  ("ts", "Xitsonga"),
  ("ve", "Tshivenda"),
  ("nr", "isiNdebele"),
  ("ss", "siSwati"),
  ("ny", "Chichewa"),
  ("sn", "Shona"),
  ("mg", "Malagasy"),
  ("km", "ខ្មែរ"),
  ("lo", "ລາວ"),
  ("my", "မြန်မာဘာသာ"),
  ("jv", "Jawa"),
  ("su", "Sunda"),
  ("ms", "Bahasa Melayu"),
  ("id", "Bahasa Indonesia"),
  ("tl", "Filipino"),
  ("ceb", "Cebuano"),
  ("jw", "Jawa"),
  ("haw", "ʻŌlelo Hawaiʻi"),
  ("mi", "Māori"),
  ("sm", "Gagana Samoa"),
  ("to", "Lea faka-Tonga"),
  ("fj", "Na vosa vaka-Viti"),
  ("ty", "Reo Tahiti"),
  ("la", "Latina"),
  ("eo", "Esperanto"),
  ("ia", "Interlingua"),
  ("vo", "Volapük"),
  ("kl", "Kalaallisut"),
  ("iu", "ᐃᓄᒃᑎᑐᑦ"),
  ("oj", "ᐊᓂᔑᓈᐯᒧᐃᐧᐣ"),
  ("cr", "ᓇᐦᒋᔪᐃᐧᐣ"),
  ("ch", "Chamoru"),
  ("mh", "Kajin M̧ajeļ"),
  ("na", "Dorerin Naoero"),
  ("pi", "पालि"),
  ("sa", "संस्कृतम्"),
  ("bo", "བོད་སྐད་"),
  ("dz", "རྫོང་ཁ"),
  ("ii", "ꆈꌠ꒿"),
  ("ug", "ئۇيغۇرچە"),
  ("yi", "ייִדיש"),
  ("qu", "Runa Simi"),
  ("gn", "Avañeẽ"),
  ("ay", "Aymar aru"),
  ("xh", "isiXhosa"),
  ("zu", "isiZulu"),
  ("ts", "Xitsonga"),
  ("tn", "Setswana"),
  ("st", "Sesotho"),
  ("ss", "siSwati"),
  ("nr", "isiNdebele"),
  ("ve", "Tshivenda"),
  ("ny", "Chichewa"),
  ("sn", "Shona"),
  ("nd", "isiNdebele"),
  ("mg", "Fiteny malagasy"),
  ("hmn", "Hmoob"),
  ("mai", "मैथिली"),
  ("bh", "भोजपुरी"),
  ("mai", "मैथिली"),
  ("new", "नेपाल भाषा"),
  ("sa", "संस्कृतम्"),
  ("si", "සිංහල"),
  ("ta", "தமிழ்"),
  ("te", "తెలుగు"),
  ("kn", "ಕನ್ನಡ"),
  ("ml", "മലയാളം"),
  ("or", "ଓଡ଼ିଆ"),
  ("pa", "ਪੰਜਾਬੀ"),
  ("gu", "ગુજરાતી"),
  ("mr", "मराठी"),
  ("as", "অসমীয়া"),
  ("bn", "বাংলা"),
  ("ne", "नेपाली"),
  ("or", "ଓଡ଼ିଆ"),
  ("pa", "ਪੰਜਾਬੀ"),
  ("gu", "ગુજરાતી"),
  ("mr", "मराठी"),
  ("as", "অসমীয়া"),
  ("bn", "বাংলা"),
  ("ur", "اردو"),
  ("fa", "فارسی"),
  ("ps", "پښتو"),
  ("ku", "Kurdî"),
  ("sd", "سنڌي"),
  ("tg", "Тоҷикӣ"),
  ("tk", "Türkmençe"),
  ("uz", "Oʻzbekcha"),
  ("az", "Azərbaycan"),
  ("kk", "Қазақша"),
  ("ky", "Кыргызча"),
  ("tt", "Татарча"),
  ("ba", "Башҡортса"),
  ("cv", "Чӑвашла"),
  ("ce", "Нохчийн мотт"),
  ("os", "Ирон æвзаг"),
  ("ab", "Аҧсшәа"),
  ("kv", "Коми кыв"),
  ("udm", "Удмурт кыл"),
  ("sah", "Саха тыла"),
  ("xal", "Хальмг келн"),
  ("bxr", "Буряад хэлэн"),
  ("evn", "Эвенкийский"),
  ("ckt", "Чукотский"),
  ("koi", "Коми-Пермяцкий"),
  ("mns", "Мансийский"),
  ("mrj", "Горномарийский"),
  ("chm", "Луговомарийский"),
  ("mdf", "Мокшень кель"),
  ("myv", "Эрзянь кель"),
  ("krc", "Къарачай-малкъар тил"),
  ("nog", "Ногай тил"),
  ("kjh", "Хакасский"),
  ("alt", "Алтайский"),
  ("ch", "Chamoru"),
  ("mh", "Kajin M̧ajeļ"),
  ("na", "Dorerin Naoero"),
  ("pi", "पालि"),
  ("sa", "संस्कृतम्"),
  ("bo", "བོད་སྐད་"),
  ("dz", "རྫོང་ཁ"),
  ("ii", "ꆈꌠ꒿"),
  ("ug", "ئۇيغۇرچە"),
  ("yi", "ייִדיש"),
  ("qu", "Runa Simi"),
  ("gn", "Avañeẽ"),
  ("ay", "Aymar aru"),
  ("xh", "isiXhosa"),
  ("zu", "isiZulu"),
  ("ts", "Xitsonga"),
  ("tn", "Setswana"),
  ("st", "Sesotho"),
  ("ss", "siSwati"),
  ("nr", "isiNdebele"),
  ("ve", "Tshivenda"),
  ("ny", "Chichewa"),
  ("sn", "Shona"),
  ("nd", "isiNdebele"),
  ("mg", "Fiteny malagasy"),
  ("hmn", "Hmoob"),
  ("mai", "मैथिली"),
  ("bh", "भोजपुरी"),
  ("mai", "मैथिली"),
  ("new", "नेपाल भाषा"),
  ("sa", "संस्कृतम्"),
  ("si", "සිංහල"),
  ("ta", "தமிழ்"),
  ("te", "తెలుగు"),
  ("kn", "ಕನ್ನಡ"),
  ("ml", "മലയാളം"),
  ("or", "ଓଡ଼ିଆ"),
  ("pa", "ਪੰਜਾਬੀ"),
  ("gu", "ગુજરાતੀ"),
  ("mr", "मराठी"),
  ("as", "অসমীয়া"),
  ("bn", "বাংলা"),
  ("ne", "नेपाली"),
  ("or", "ଓଡ଼ିଆ"),
  ("pa", "ਪੰਜਾਬੀ"),
  ("gu", "ગુજરાતੀ"),
  ("mr", "मराठी"),
  ("as", "অসমীয়া"),
  ("bn", "বাংলা"),
  ("ur", "اردو"),
  ("fa", "فارسی"),
  ("ps", "پښتو"),
  ("ku", "Kurdî"),
  ("sd", "سنڌي"),
  ("tg", "Тоҷикӣ"),
  ("tk", "Türkmençe"),
  ("uz", "Oʻzbekcha"),
  ("az", "Azərbaycan"),
  ("kk", "Қазақша"),
  ("ky", "Кыргызча"),
  ("tt", "Татарча"),
  ("ba", "Башҡортса"),
  ("cv", "Чӑвашла"),
  ("ce", "Нохчийн мотт"),
  ("os", "Ирон æвзаг"),
  ("ab", "Аҧсшәа"),
  ("kv", "Коми кыв"),
  ("udm", "Удмурт кыл"),
  ("sah", "Саха тыла"),
  ("xal", "Хальмг келн"),
  ("bxr", "Буряад хэлэн"),
  ("evn", "Эвенкийский"),
  ("ckt", "Чукотский"),
  ("koi", "Коми-Пермяцкий"),
  ("mns", "Мансийский"),
  ("mrj", "Горномарийский"),
  ("chm", "Луговомарийский"),
  ("mdf", "Мокшень кель"),
  ("myv", "Эрзянь кель"),
  ("krc", "Къарачай-малкъар тил"),
  ("nog", "Ногай тил"),
  ("kjh", "Хакасский"),
  ("alt", "Алтайский")
]

/-- Python dict-literal insertion: overwrite in place if the key is
already present, else append. -/
def pyDictInsert (d : List (String × String)) (k v : String) :
    List (String × String) :=
  if d.any (fun p => p.1 = k) then
    d.map (fun p => if p.1 = k then (k, v) else p)
  else
    d ++ [(k, v)]

/-- Evaluate a dict literal: fold the written pairs left to right. -/
def pyDict (pairs : List (String × String)) : List (String × String) :=
  pairs.foldl (fun d p => pyDictInsert d p.1 p.2) []

/-- `self.languages`, the dict produced by `_get_supported_languages`,
as an association list in Python dict iteration order. -/
def languages : List (String × String) :=
  pyDict languagePairs

/-- Python's `<` on strings: lexicographic comparison of the code-point
sequences. -/
def pyStrLt : List Char → List Char → Bool
  | _, [] => false
  | [], _ :: _ => true
  | a :: as, b :: bs =>
    if a < b then true else if b < a then false else pyStrLt as bs

/-- Python's `<=` on strings (`s <= t` iff not `t < s`). -/
def pyStrLe (s t : String) : Bool :=
  !pyStrLt t.data s.data

/-- Stable insertion into an ascending list: the new element goes after
every existing element that is `le` it, so elements comparing equal keep
their original relative order. -/
def insertStable (le : α → α → Bool) (x : α) : List α → List α
  | [] => [x]
  | y :: ys => if le y x then y :: insertStable le x ys else x :: y :: ys

/-- Stable ascending sort (insertion sort), the semantics of Python's
stable `list.sort`. -/
def stableSort (le : α → α → Bool) (l : List α) : List α :=
  l.foldl (fun acc x => insertStable le x acc) []

/-- `TextTranslator.get_supported_languages_list()`: the `(code, name)`
pairs sorted by name (Python's stable `list.sort` with
`key=lambda x: x[1]`, i.e. stable ascending lexicographic comparison of
the names by code point). -/
def get_supported_languages_list : List (String × String) :=
  stableSort (fun a b => pyStrLe a.2 b.2) languages

/-- `VoiceTranslatorApp._get_language_code(language_name)`: scan the
sorted language list and return the first code whose display name
matches, falling back to `'es'`. -/
def get_language_code (language_name : String) : String :=
  match get_supported_languages_list.find? (fun p => p.2 == language_name) with
  | some p => p.1
  | none => "es"

/-- `TextTranslator.get_language_name(lang_code)`:
`self.languages.get(lang_code)`. -/
def get_language_name (lang_code : String) : Option String :=
  (languages.find? (fun p => p.1 == lang_code)).map (fun p => p.2)

/-! ## Session toggle: `VoiceTranslatorApp._toggle_auto_translation`
(app.py 447-474)

The app has a single UI entry point for starting and stopping the
continuous-translation session: pressing the record button runs
`_toggle_auto_translation`, which branches on `self.is_recording`.
There is no separate `start()` / `stop()` callable.  The status HTML
string returned alongside the button label carries no state and is
omitted; `workersStarted` counts how many background listening threads
have been spawned (`threading.Thread(...).start()`). -/

/-- The session-relevant mutable fields of `VoiceTranslatorApp`
(`self.is_recording`, `self.auto_translate`) plus the count of spawned
listening workers. -/
structure AppState where
  is_recording : Bool
  auto_translate : Bool
  workersStarted : Nat
  deriving DecidableEq, Repr

/-- The fresh state set up in `VoiceTranslatorApp.__init__`
(`is_recording = False`, `auto_translate = True`, no worker yet). -/
def AppState.initial : AppState := ⟨false, true, 0⟩

/-- What `_toggle_auto_translation` returns to the UI (status HTML
omitted): the new button label and the cleared text boxes. -/
structure ToggleOutput where
  state : AppState
  buttonLabel : String
  recognizedBox : String
  translatedBox : String
  deriving DecidableEq, Repr

/-- `VoiceTranslatorApp._toggle_auto_translation(source_lang,
target_lang, auto_translate, current_status)`: when not recording, set
`is_recording`, store the checkbox value, spawn the continuous
listening worker and relabel the button to stop; when recording, clear
`is_recording` and relabel the button to start.  Total — no branch
raises. -/
def toggle_auto_translation (s : AppState) (auto : Bool) : ToggleOutput :=
  if !s.is_recording then
    ⟨⟨true, auto, s.workersStarted + 1⟩,
      "⏹️ Detener Traducción", "", ""⟩
  else
    ⟨⟨false, s.auto_translate, s.workersStarted⟩,
      "🎤 Iniciar Traducción Automática", "", ""⟩

/-! ## Realtime publishing: `VoiceTranslatorApp._process_audio_realtime`
(app.py 576-616)

Each recognized utterance is processed on its own thread; on full
pipeline success the handler publishes the results with three separate
attribute assignments

    self.last_recognized_text = text
    self.last_translated_text = translated_text
    self.last_audio = audio_base64

Under CPython each single assignment is atomic, but another thread (the
UI reading the fields, or a second utterance handler) can be scheduled
between them.  The embedding therefore returns the whole sequence of
shared-state snapshots a concurrent reader can observe: the state before
the first assignment and after each of the three. -/

/-- The shared last-result fields of `VoiceTranslatorApp` read by the
UI.  `last_audio` is `Option` because `get_audio_base64` may return
`None`, which the handler assigns as-is. -/
structure SessionView where
  last_recognized_text : String
  last_translated_text : String
  last_audio : Option String
  deriving DecidableEq, Repr

/-- `_process_audio_realtime` after recognition produced `text`: the
short-text filter (`if text and len(text) > 2:`), the
`self.auto_translate` gate, the translation call (its `None` failure
leaves the shared state untouched), the audio generation, and the three
sequential field assignments.  The returned list is the sequence of
reader-observable shared states, in program order. -/
def process_audio_realtime (auto_translate : Bool)
    (translate : String → Option String) (tts : String → Option String)
    (s : SessionView) (text : String) : List SessionView :=
  if text ≠ "" ∧ 2 < text.length then
    if auto_translate then
      match translate text with
      | some translated_text =>
        let audio_base64 := tts translated_text
        let s1 := { s with last_recognized_text := text }
        let s2 := { s1 with last_translated_text := translated_text }
        let s3 := { s2 with last_audio := audio_base64 }
        [s, s1, s2, s3]
      | none => [s]
    else [s]
  else [s]

/-! ## Theorems settling the specified claims -/

/-- C1: for every non-blank input text, if the backing translation
service raises on exactly the first `K` attempts (`K < 3`) and then
succeeds with valid text, `translate_text` returns the successful
(stripped) translation after `K + 1` service invocations, having slept
1 second after each failed attempt; and if the service raises on every
attempt, `translate_text` invokes the service exactly 3 times, sleeps 1
second between consecutive attempts (2 seconds in total), and returns
`None` instead of raising. -/
theorem translate_text_retry_policy
    (service : Nat → Except Unit String) (text src tgt : String)
    (htext : pyStrip text ≠ "") :
    (∀ K t, K < 3 → (∀ i, i < K → service i = .error ()) →
      service K = .ok t → t ≠ "" →
      translate_text {} service text src tgt = ⟨some (pyStrip t), K + 1, K⟩)
    ∧ ((∀ i, i < 3 → service i = .error ()) →
      translate_text {} service text src tgt = ⟨none, 3, 2⟩) := by
  constructor
  · intro K t hK hfail hsucc ht
    interval_cases K
    · simp [translate_text, translateAttempts, htext, hsucc, ht]
    · have h0 := hfail 0 (by omega)
      simp [translate_text, translateAttempts, htext, h0, hsucc, ht]
    · have h0 := hfail 0 (by omega)
      have h1 := hfail 1 (by omega)
      simp [translate_text, translateAttempts, htext, h0, h1, hsucc, ht]
  · intro hfail
    have h0 := hfail 0 (by omega)
    have h1 := hfail 1 (by omega)
    have h2 := hfail 2 (by omega)
    simp [translate_text, translateAttempts, htext, h0, h1, h2]

/-- C1 witness: with a service that raises once and then returns
"Hello", `translate_text` succeeds on the second attempt; with a service
that always raises, it returns `None` after 3 attempts and 2 seconds of
delay. -/
theorem translate_text_retry_policy_witness :
    translate_text {} (fun i => if i = 0 then .error () else .ok "Hello")
      "hola" "es" "en" = ⟨some (pyStrip "Hello"), 1 + 1, 1⟩
    ∧ translate_text {} (fun _ => .error ()) "hola" "es" "en"
      = ⟨none, 3, 2⟩ := by
  constructor
  · exact (translate_text_retry_policy
      (fun i => if i = 0 then .error () else .ok "Hello") "hola" "es" "en"
      (by decide)).1 1 "Hello" (by omega)
      (fun i hi => by
        have hi0 : i = 0 := by omega
        subst hi0
        rfl)
      rfl (by decide)
  · exact (translate_text_retry_policy (fun _ => .error ()) "hola" "es" "en"
      (by decide)).2 (fun i _ => rfl)

/-- C4: for every empty or whitespace-only input text and every pair of
language codes, `translate_text` returns `None` with zero invocations of
the backing translation service (and no retry sleeps). -/
theorem translate_text_blank_zero_calls (tr : TextTranslator)
    (service : Nat → Except Unit String) (text src tgt : String)
    (hblank : pyStrip text = "") :
    translate_text tr service text src tgt = ⟨none, 0, 0⟩ := by
  simp [translate_text, hblank]

/-- C4 witness: whitespace-only input is rejected before reaching an
always-successful service. -/
theorem translate_text_blank_zero_calls_witness :
    translate_text {} (fun _ => .ok "Hello") " \t " "auto" "es"
      = ⟨none, 0, 0⟩ :=
  translate_text_blank_zero_calls {} (fun _ => .ok "Hello") " \t " "auto" "es"
    (by decide)

/-- C2: for any fixed `(text, source_lang, target_lang)` tuple not yet
cached, two consecutive `translate_with_cache` calls enter the wrapped
backing translation (`translate_text`) exactly once — the first call
adds one backing invocation, the second adds none — and the second call
returns the identical value as the first; when the backing service
succeeds at once with valid text, that shared value is the successful
translation string. -/
theorem translate_with_cache_one_backing_call
    (service : TKey → Nat → Except Unit String) (st : CacheState)
    (text src tgt : String)
    (hmiss : lruLookup (text, src, tgt) st.entries = none) :
    (translate_with_cache {} service
        (translate_with_cache {} service st text src tgt).2 text src tgt).1
      = (translate_with_cache {} service st text src tgt).1
    ∧ (translate_with_cache {} service st text src tgt).2.backingCalls
      = st.backingCalls + 1
    ∧ (translate_with_cache {} service
        (translate_with_cache {} service st text src tgt).2
        text src tgt).2.backingCalls
      = st.backingCalls + 1
    ∧ (∀ t, service (text, src, tgt) 0 = .ok t → t ≠ "" →
        pyStrip text ≠ "" →
        (translate_with_cache {} service st text src tgt).1
          = some (pyStrip t)) := by
  refine ⟨?_, ?_, ?_, ?_⟩
  · simp [translate_with_cache, hmiss, lruLookup, List.take_succ_cons]
  · simp [translate_with_cache, hmiss]
  · simp [translate_with_cache, hmiss, lruLookup, List.take_succ_cons]
  · intro t hok ht htext
    simp [translate_with_cache, hmiss, translate_text, htext,
      translateAttempts, hok, ht]

/-- C2 witness: translating "hola" twice from an empty cache with an
immediately successful service makes exactly one backing invocation and
both calls return the translation. -/
theorem translate_with_cache_one_backing_call_witness :
    (translate_with_cache {} (fun _ _ => .ok "Hello")
        (translate_with_cache {} (fun _ _ => .ok "Hello") CacheState.empty
          "hola" "es" "en").2 "hola" "es" "en").1
      = (translate_with_cache {} (fun _ _ => .ok "Hello") CacheState.empty
          "hola" "es" "en").1
    ∧ (translate_with_cache {} (fun _ _ => .ok "Hello") CacheState.empty
        "hola" "es" "en").2.backingCalls = 0 + 1
    ∧ (translate_with_cache {} (fun _ _ => .ok "Hello") CacheState.empty
        "hola" "es" "en").1 = some (pyStrip "Hello") := by
  have h := translate_with_cache_one_backing_call (fun _ _ => .ok "Hello")
    CacheState.empty "hola" "es" "en" rfl
  exact ⟨h.1, h.2.1, h.2.2.2 "Hello" rfl (by decide) (by decide)⟩

/-- C3 counterexample: with a backing service that always raises, the
first `translate_with_cache "hola" "es" "en"` call fails (`None`) yet a
cache entry for the key is created and maps to the failure, and the
second call with the same key performs no further backing invocation —
contradicting the claim that failures are never cached and that a later
call invokes the backing service again. -/
theorem translate_cache_stores_failure_counterexample :
    (translate_with_cache {} (fun _ _ => .error ()) CacheState.empty
        "hola" "es" "en").1 = none
    ∧ (translate_with_cache {} (fun _ _ => .error ()) CacheState.empty
        "hola" "es" "en").2.entries = [(("hola", "es", "en"), none)]
    ∧ (translate_with_cache {} (fun _ _ => .error ())
        (translate_with_cache {} (fun _ _ => .error ()) CacheState.empty
          "hola" "es" "en").2 "hola" "es" "en").2.backingCalls = 1 := by
  decide

/-- C3 amended: the `lru_cache` wrapper stores every computed result,
including the failure result `None`; whenever the wrapped
`translate_text` fails for an uncached key, the failure is inserted
into the cache, and a later call with the same key returns the cached
`None` without entering the backing translation again. -/
theorem translate_cache_stores_failures (tr : TextTranslator)
    (service : TKey → Nat → Except Unit String) (st : CacheState)
    (text src tgt : String)
    (hmiss : lruLookup (text, src, tgt) st.entries = none)
    (hfail : (translate_text tr (service (text, src, tgt))
        text src tgt).result = none) :
    lruLookup (text, src, tgt)
        (translate_with_cache tr service st text src tgt).2.entries
      = some none
    ∧ (translate_with_cache tr service
        (translate_with_cache tr service st text src tgt).2 text src tgt).1
      = none
    ∧ (translate_with_cache tr service
        (translate_with_cache tr service st text src tgt).2
        text src tgt).2.backingCalls
      = st.backingCalls + 1 := by
  refine ⟨?_, ?_, ?_⟩ <;>
    simp [translate_with_cache, hmiss, hfail, lruLookup, List.take_succ_cons]

/-- C3 amended witness: the always-failing service at the key
`("hola", "es", "en")` from the empty cache. -/
theorem translate_cache_stores_failures_witness :
    lruLookup ("hola", "es", "en")
        (translate_with_cache {} (fun _ _ => .error ()) CacheState.empty
          "hola" "es" "en").2.entries
      = some none
    ∧ (translate_with_cache {} (fun _ _ => .error ())
        (translate_with_cache {} (fun _ _ => .error ()) CacheState.empty
          "hola" "es" "en").2 "hola" "es" "en").1
      = none := by
  have h := translate_cache_stores_failures {} (fun _ _ => .error ())
    CacheState.empty "hola" "es" "en" rfl (by decide)
  exact ⟨h.1, h.2.1⟩

/-- Inserting stably is a permutation of consing. -/
theorem insertStable_perm (le : α → α → Bool) (x : α) :
    ∀ l : List α, (insertStable le x l).Perm (x :: l) := by
  intro l
  induction l with
  | nil => simp [insertStable]
  | cons y ys ih =>
    simp only [insertStable]
    split
    · exact (ih.cons y).trans (List.Perm.swap x y ys)
    · exact List.Perm.refl _

/-- The stable sort is a permutation of its input. -/
theorem stableSort_perm (le : α → α → Bool) (l : List α) :
    (stableSort le l).Perm l := by
  have key : ∀ (m acc : List α),
      (m.foldl (fun acc x => insertStable le x acc) acc).Perm (m ++ acc) := by
    intro m
    induction m with
    | nil => intro acc; simp
    | cons x xs ih =>
      intro acc
      simp only [List.foldl_cons]
      refine ((ih (insertStable le x acc)).trans ?_)
      refine (List.Perm.append_left xs (insertStable_perm le x acc)).trans ?_
      exact List.perm_middle
  simpa [stableSort] using key l []

/-- C5 counterexample: the catalog maps both `'jv'` and `'jw'` to the
display name `"Jawa"`; `get_language_code` resolves `"Jawa"` to the
first such code in the sorted list, `'jv'`, so
`codeFor (displayNameFor 'jw') = 'jv' ≠ 'jw'` — the stated inversion
fails. -/
theorem language_roundtrip_counterexample :
    get_language_name "jw" = some "Jawa"
    ∧ get_language_code "Jawa" = "jv"
    ∧ get_language_code (get_language_name "jw").get! ≠ "jw" := by
  refine ⟨by decide, by decide, by decide⟩

set_option maxHeartbeats 4000000 in
/-- C5 amended: `get_language_code` is total — for every display-name
string it returns either a catalog entry's code paired with that very
name, or the fallback `'es'` — and applying it to a catalog code's
display name returns a code carrying the same display name (hence the
original code whenever its display name is unique in the catalog, but
e.g. `'jw'` and `'nd'` share their names with the earlier codes `'jv'`
and `'nr'` and map back to those instead). -/
theorem language_code_total_and_name_roundtrip :
    (∀ name : String, get_language_code name = "es"
      ∨ (get_language_code name, name) ∈ languages)
    ∧ (∀ p ∈ languages, get_language_name (get_language_code p.2)
        = some p.2) := by
  constructor
  · intro name
    unfold get_language_code
    cases hf : get_supported_languages_list.find? (fun p => p.2 == name) with
    | none => exact Or.inl rfl
    | some p =>
      refine Or.inr ?_
      have hmem : p ∈ get_supported_languages_list :=
        List.mem_of_find?_eq_some hf
      have hname : p.2 = name := by
        have := List.find?_some hf
        simpa using this
      have hmem' : p ∈ languages := by
        have hperm : get_supported_languages_list.Perm languages :=
          stableSort_perm _ languages
        exact hperm.mem_iff.mp hmem
      have : (p.1, name) = p := by
        cases p with
        | mk a b => simp [hname.symm]
      rw [this]
      exact hmem'
  · decide

/-- C5 amended witness: an unknown name falls back to `'es'`, and the
entry `('es', "Español")` round-trips through its display name. -/
theorem language_code_total_and_name_roundtrip_witness :
    (get_language_code "Klingon" = "es"
      ∨ (get_language_code "Klingon", "Klingon") ∈ languages)
    ∧ get_language_name (get_language_code "Español") = some "Español" :=
  ⟨language_code_total_and_name_roundtrip.1 "Klingon",
    language_code_total_and_name_roundtrip.2 ("es", "Español") (by decide)⟩

/-- C6: `_recognize_audio` refines the spec's engine-selection cascade:
with the Whisper model present exactly when `_load_whisper_model`
succeeded, the result is that of trying — in order — Whisper (skipped
silently when loading failed), the Google recognition service, then
Sphinx, returning the first success; and when every engine fails the
call returns the explicit "no text recognized" outcome `none` instead of
raising. -/
theorem recognize_audio_engine_cascade :
    (∀ (load : Except Unit Unit) (w g s : Except Unit String),
      recognize_audio (load_whisper_model load) w g s
        = engineCascade
            ((match load with | .ok _ => [w] | .error _ => []) ++ [g, s]))
    ∧ (∀ wm : Option Unit,
      recognize_audio wm (.error ()) (.error ()) (.error ()) = none) := by
  constructor
  · intro load w g s
    cases load <;> cases w <;> cases g <;> cases s <;> rfl
  · intro wm
    cases wm <;> rfl

/-- C7: each `text_to_speech` dispatch enters exactly one of the two
engine functions — `'gtts'` enters `text_to_speech_gtts` once and never
touches pyttsx3, `'pyttsx3'` enters `text_to_speech_pyttsx3` once and
never touches gTTS — and the selected engine's result (failure
included) is returned directly, with zero backing invocations of the
other engine, i.e. no automatic retry with the other engine. -/
theorem text_to_speech_engine_exclusive
    (ea : Bool) (gc pc : Except Unit Bytes) (text lang : String)
    (slow : Bool) :
    ((text_to_speech ea gc pc text lang "gtts" slow).gttsFn = 1
      ∧ (text_to_speech ea gc pc text lang "gtts" slow).pyttsxFn = 0
      ∧ (text_to_speech ea gc pc text lang "gtts" slow).pyttsxSvc = 0
      ∧ (text_to_speech ea gc pc text lang "gtts" slow).result
          = (text_to_speech_gtts gc text lang slow).1)
    ∧ ((text_to_speech ea gc pc text lang "pyttsx3" slow).pyttsxFn = 1
      ∧ (text_to_speech ea gc pc text lang "pyttsx3" slow).gttsFn = 0
      ∧ (text_to_speech ea gc pc text lang "pyttsx3" slow).gttsSvc = 0
      ∧ (text_to_speech ea gc pc text lang "pyttsx3" slow).result
          = (text_to_speech_pyttsx3 ea pc text lang).1) :=
  ⟨⟨rfl, rfl, rfl, rfl⟩, ⟨rfl, rfl, rfl, rfl⟩⟩

/-- C10: for every empty or whitespace-only text and every language
code, both synthesis operations return `None` with zero backing engine
invocations, and `get_audio_base64` consequently returns `None` for
every engine selector. -/
theorem tts_blank_text_no_synthesis
    (ea : Bool) (gc pc : Except Unit Bytes) (text lang engine : String)
    (slow : Bool) (hblank : pyStrip text = "") :
    text_to_speech_gtts gc text lang slow = (none, 0)
    ∧ text_to_speech_pyttsx3 ea pc text lang = (none, 0)
    ∧ (get_audio_base64 ea gc pc text lang engine).1 = none := by
  refine ⟨?_, ?_, ?_⟩
  · simp [text_to_speech_gtts, hblank]
  · simp [text_to_speech_pyttsx3, hblank]
  · simp only [get_audio_base64, text_to_speech, text_to_speech_gtts,
      text_to_speech_pyttsx3, hblank]
    split_ifs <;> simp

/-- C10 witness: the whitespace-only text `" "` with both engines able
to produce audio. -/
theorem tts_blank_text_no_synthesis_witness :
    text_to_speech_gtts (.ok [1, 2]) " " "es" false = (none, 0)
    ∧ text_to_speech_pyttsx3 true (.ok [3]) " " "es" = (none, 0)
    ∧ (get_audio_base64 true (.ok [1, 2]) (.ok [3]) " " "es" "gtts").1
      = none :=
  tts_blank_text_no_synthesis true (.ok [1, 2]) (.ok [3]) " " "es" "gtts"
    false (by decide)

/-- C8 counterexample: the app's only start/stop entry point is the
toggle `_toggle_auto_translation`; invoked in the Idle state it is not a
no-op — it starts a session (sets `is_recording` and spawns a worker) —
and invoked while Listening it does not reject-and-leave-unchanged but
stops the running session. -/
theorem session_toggle_counterexample :
    (toggle_auto_translation AppState.initial true).state.is_recording
      = true
    ∧ (toggle_auto_translation AppState.initial true).state.workersStarted
      = 1
    ∧ (toggle_auto_translation ⟨true, true, 1⟩ true).state.is_recording
      = false := by
  decide

/-- C8 amended: the session has exactly two states, tracked by the
boolean `is_recording`, and the single toggle entry point never raises
and always flips it: from Idle it starts listening (stores the checkbox
value and spawns exactly one background worker), and from Listening it
stops the session without spawning a worker or touching
`auto_translate`; dedicated stop-while-Idle or start-while-Listening
operations do not exist. -/
theorem session_toggle_two_state (s : AppState) (auto : Bool) :
    (toggle_auto_translation s auto).state.is_recording = !s.is_recording
    ∧ (toggle_auto_translation s auto).state.workersStarted
      = (if s.is_recording then s.workersStarted else s.workersStarted + 1)
    ∧ (toggle_auto_translation s auto).state.auto_translate
      = (if s.is_recording then s.auto_translate else auto)
    ∧ (toggle_auto_translation s auto).buttonLabel
      = (if s.is_recording then "🎤 Iniciar Traducción Automática"
          else "⏹️ Detener Traducción") := by
  cases h : s.is_recording <;> simp [toggle_auto_translation, h]

/-- C9: the worker publishes an utterance's results with three separate
sequential field assignments, not one atomic replacement: starting from
utterance A's triple and publishing utterance B, the snapshot after the
first assignment pairs B's recognized text with A's translated text and
A's audio (and the snapshot after the second still carries A's audio),
so a concurrently scheduled reader can observe a mixed triple. -/
theorem process_audio_realtime_partial_update :
    process_audio_realtime true (fun _ => some "hello two")
      (fun _ => some "audio-two")
      ⟨"hola uno", "hello one", some "audio-one"⟩ "hola dos"
    = [⟨"hola uno", "hello one", some "audio-one"⟩,
       ⟨"hola dos", "hello one", some "audio-one"⟩,
       ⟨"hola dos", "hello two", some "audio-one"⟩,
       ⟨"hola dos", "hello two", some "audio-two"⟩] := by
  decide

end VozAVoz
